import Mathlib

set_option maxRecDepth 4000

/-!
Verification of the request-correlation client in `src/telega/client.py`
(class `TelegramTDLibClient`).  The Python values exchanged with the tdlib
channel are JSON-like dictionaries; they are embedded as the inductive
type `JVal` below, and every operation of the client that the claims
mention is translated into an executable Lean function over that type.
Times are modelled as rationals, the transport channel as an explicit
trace of poll results (for the correlator) or as an oracle of matched
response envelopes (for the higher-level paginated calls).
-/

/-- JSON-like values held in the Python dictionaries exchanged with the
tdlib channel: `None`, booleans, integers, strings, lists and dicts.
Floating point numbers do not occur on the modelled code paths. -/
inductive JVal : Type where
  | null : JVal
  | bool : Bool → JVal
  | int : Int → JVal
  | str : String → JVal
  | arr : List JVal → JVal
  | obj : List (String × JVal) → JVal
deriving Repr

mutual
/-- Structural equality test on `JVal` (Python `==` restricted to the
value shapes above; the client only ever compares strings and integers). -/
def JVal.beq : JVal → JVal → Bool
  | .null, .null => true
  | .bool a, .bool b => a == b
  | .int a, .int b => a == b
  | .str a, .str b => a == b
  | .arr xs, .arr ys => JVal.beqList xs ys
  | .obj fs, .obj gs => JVal.beqFields fs gs
  | _, _ => false

/-- Equality test on lists of values. -/
def JVal.beqList : List JVal → List JVal → Bool
  | [], [] => true
  | x :: xs, y :: ys => JVal.beq x y && JVal.beqList xs ys
  | _, _ => false

/-- Equality test on dictionary field lists. -/
def JVal.beqFields : List (String × JVal) → List (String × JVal) → Bool
  | [], [] => true
  | (k, v) :: fs, (l, w) :: gs => k == l && JVal.beq v w && JVal.beqFields fs gs
  | _, _ => false
end

mutual
theorem JVal.beq_iff : ∀ a b : JVal, JVal.beq a b = true ↔ a = b
  | .null, .null => by simp [JVal.beq]
  | .null, .bool _ => by simp [JVal.beq]
  | .null, .int _ => by simp [JVal.beq]
  | .null, .str _ => by simp [JVal.beq]
  | .null, .arr _ => by simp [JVal.beq]
  | .null, .obj _ => by simp [JVal.beq]
  | .bool _, .null => by simp [JVal.beq]
  | .bool _, .bool _ => by simp [JVal.beq]
  | .bool _, .int _ => by simp [JVal.beq]
  | .bool _, .str _ => by simp [JVal.beq]
  | .bool _, .arr _ => by simp [JVal.beq]
  | .bool _, .obj _ => by simp [JVal.beq]
  | .int _, .null => by simp [JVal.beq]
  | .int _, .bool _ => by simp [JVal.beq]
  | .int _, .int _ => by simp [JVal.beq]
  | .int _, .str _ => by simp [JVal.beq]
  | .int _, .arr _ => by simp [JVal.beq]
  | .int _, .obj _ => by simp [JVal.beq]
  | .str _, .null => by simp [JVal.beq]
  | .str _, .bool _ => by simp [JVal.beq]
  | .str _, .int _ => by simp [JVal.beq]
  | .str _, .str _ => by simp [JVal.beq]
  | .str _, .arr _ => by simp [JVal.beq]
  | .str _, .obj _ => by simp [JVal.beq]
  | .arr _, .null => by simp [JVal.beq]
  | .arr _, .bool _ => by simp [JVal.beq]
  | .arr _, .int _ => by simp [JVal.beq]
  | .arr _, .str _ => by simp [JVal.beq]
  | .arr xs, .arr ys => by
    rw [JVal.beq]
    simp only [JVal.arr.injEq]
    exact JVal.beqList_iff xs ys
  | .arr _, .obj _ => by simp [JVal.beq]
  | .obj _, .null => by simp [JVal.beq]
  | .obj _, .bool _ => by simp [JVal.beq]
  | .obj _, .int _ => by simp [JVal.beq]
  | .obj _, .str _ => by simp [JVal.beq]
  | .obj _, .arr _ => by simp [JVal.beq]
  | .obj fs, .obj gs => by
    rw [JVal.beq]
    simp only [JVal.obj.injEq]
    exact JVal.beqFields_iff fs gs

theorem JVal.beqList_iff : ∀ xs ys : List JVal, JVal.beqList xs ys = true ↔ xs = ys
  | [], [] => by simp [JVal.beqList]
  | [], _ :: _ => by simp [JVal.beqList]
  | _ :: _, [] => by simp [JVal.beqList]
  | x :: xs, y :: ys => by
    rw [JVal.beqList]
    simp only [Bool.and_eq_true, List.cons.injEq]
    rw [JVal.beq_iff x y, JVal.beqList_iff xs ys]

theorem JVal.beqFields_iff :
    ∀ fs gs : List (String × JVal), JVal.beqFields fs gs = true ↔ fs = gs
  | [], [] => by simp [JVal.beqFields]
  | [], _ :: _ => by simp [JVal.beqFields]
  | _ :: _, [] => by simp [JVal.beqFields]
  | (k, v) :: fs, (l, w) :: gs => by
    rw [JVal.beqFields]
    simp only [Bool.and_eq_true, List.cons.injEq, Prod.mk.injEq, beq_iff_eq]
    rw [JVal.beq_iff v w, JVal.beqFields_iff fs gs]
end

instance : DecidableEq JVal := fun a b =>
  decidable_of_iff (JVal.beq a b = true) (JVal.beq_iff a b)

/-- A Python dictionary with string keys (e.g. a request or response
envelope): an association list, looked up at the first occurrence of a
key (keys of dicts built by the client are unique). -/
abbrev JObj := List (String × JVal)

/-- `d.get(k)` / `d[k]`-style lookup on a dictionary. -/
def jlookup (o : JObj) (k : String) : Option JVal := o.lookup k

/-- Python truthiness of a value (`if x:`). -/
def pyTruthy : JVal → Bool
  | .null => false
  | .bool b => b
  | .int n => n != 0
  | .str s => s != ""
  | .arr xs => !xs.isEmpty
  | .obj fs => !fs.isEmpty

mutual
/-- Python `repr` of a value, as used for elements inside containers. -/
def pyRepr : JVal → String
  | .null => "None"
  | .bool b => if b then "True" else "False"
  | .int n => toString n
  | .str s => "'" ++ s ++ "'"
  | .arr xs => "[" ++ ", ".intercalate (pyReprList xs) ++ "]"
  | .obj fs => "\x7b" ++ ", ".intercalate (pyReprFields fs) ++ "\x7d"

/-- `repr` of the elements of a list. -/
def pyReprList : List JVal → List String
  | [] => []
  | x :: xs => pyRepr x :: pyReprList xs

/-- `repr` of the key/value pairs of a dict. -/
def pyReprFields : List (String × JVal) → List String
  | [] => []
  | (k, v) :: fs => ("'" ++ k ++ "': " ++ pyRepr v) :: pyReprFields fs
end

/-- Python `str` of a value, as applied by `%s` formatting: a string
renders as itself, everything else as its `repr`. -/
def pyStr : JVal → String
  | .str s => s
  | .null => "None"
  | .bool b => if b then "True" else "False"
  | .int n => toString n
  | .arr xs => pyRepr (.arr xs)
  | .obj fs => pyRepr (.obj fs)

/-- Modelled from the spec: the `telega.errors` exception taxonomy
(spec section 7) — the `errors` module itself is not under `src/`, only
its uses in `client.py` are.  Each kind carries the message it was
raised with; `TwoFactorPasswordNeeded` is raised bare in the source. -/
inductive TelegaError : Type where
  | InvalidPhoneNumber (msg : String)
  | PasswordError (msg : String)
  | PhoneCodeInvalid (msg : String)
  | NoPermission (msg : String)
  | ObjectNotFound (msg : String)
  | AlreadyAuthorized (msg : String)
  | AlreadyLoggingOut (msg : String)
  | AuthError (msg : String)
  | TooManyRequests (msg : String)
  | UnknownError (msg : String)
  | TDLibError (msg : String)
  | TwoFactorPasswordNeeded
deriving DecidableEq, Repr

/-- A failure of the embedded Python code: either one of the library's
own `TelegaError` kinds, or a built-in Python exception escaping from a
dictionary/list operation. -/
inductive PyErr : Type where
  | telega (e : TelegaError)
  | keyError (key : String)
  | attributeError (what : String)
  | typeError (what : String)
  | indexError (what : String)
deriving DecidableEq, Repr

instance {α β : Type} [DecidableEq α] [DecidableEq β] :
    DecidableEq (Except α β) := fun a b =>
  match a, b with
  | .ok x, .ok y =>
    if h : x = y then .isTrue (by rw [h]) else .isFalse (by simp [h])
  | .error x, .error y =>
    if h : x = y then .isTrue (by rw [h]) else .isFalse (by simp [h])
  | .ok _, .error _ => .isFalse (fun h => nomatch h)
  | .error _, .ok _ => .isFalse (fun h => nomatch h)

/-- `x[k]` on an arbitrary value: key lookup on a dict (raising
`KeyError` when absent), `TypeError` on anything that is not a dict. -/
def pyIndex (v : JVal) (k : String) : Except PyErr JVal :=
  match v with
  | .obj fs =>
    match fs.lookup k with
    | some x => .ok x
    | none => .error (.keyError k)
  | _ => .error (.typeError "not subscriptable")

/-- `x[k1][k2]` (e.g. `chat['type']['supergroup_id']`): two chained
subscript operations, the first failure propagating. -/
def pyIndex2 (v : JVal) (k1 k2 : String) : Except PyErr JVal :=
  match pyIndex v k1 with
  | .error e => .error e
  | .ok w => pyIndex w k2

/-- `for x in v`: the element sequence of a Python value — list elements,
characters of a string, keys of a dict; `TypeError` otherwise. -/
def pyIter (v : JVal) : Except PyErr (List JVal) :=
  match v with
  | .arr xs => .ok xs
  | .str s => .ok (s.toList.map (fun c => .str c.toString))
  | .obj fs => .ok (fs.map (fun kv => .str kv.1))
  | _ => .error (.typeError "not iterable")

/-- `TelegramTDLibClient._handle_errors` (client.py lines 242-276): the
ordered error-classification table applied to a response envelope whose
type tag is the error marker; does nothing on a non-error envelope. -/
def handle_errors (response : JObj) : Except PyErr Unit :=
  match jlookup response "@type" with
  | none => .error (.keyError "@type")
  | some t =>
    if t = JVal.str "error" then
      let message := (jlookup response "message").getD (.str "Empty error message")
      let code := (jlookup response "code").getD .null
      let exc_msg := "Telegram error: " ++ pyStr code ++ " -> " ++ pyStr message
      if message = .str "PHONE_NUMBER_INVALID" then
        .error (.telega (.InvalidPhoneNumber exc_msg))
      else if message = .str "PASSWORD_HASH_INVALID" then
        .error (.telega (.PasswordError exc_msg))
      else if message = .str "PHONE_CODE_INVALID" then
        .error (.telega (.PhoneCodeInvalid exc_msg))
      else if message = .str "Supergroup members are unavailable" then
        .error (.telega (.NoPermission exc_msg))
      else if message = .str "Chat not found" then
        .error (.telega (.ObjectNotFound exc_msg))
      else if message = .str "setAuthenticationPhoneNumber unexpected" then
        .error (.telega (.AlreadyAuthorized exc_msg))
      else if message = .str "Already logging out" then
        .error (.telega (.AlreadyLoggingOut exc_msg))
      else if code = .int 401 ∨ message = .str "Unauthorized" then
        .error (.telega (.AuthError exc_msg))
      else if code = .int 429 ∨ code = .int 420 then
        .error (.telega (.TooManyRequests exc_msg))
      else
        .error (.telega (.UnknownError exc_msg))
    else .ok ()

/-- `response.get('@extra', \x7b\x7d).get('request_id')` from
`_wait_result` (client.py line 234): the second `.get` raises
`AttributeError` when the value stored under `'@extra'` is not a dict. -/
def extract_request_id (response : JObj) : Except PyErr (Option JVal) :=
  match (jlookup response "@extra").getD (.obj []) with
  | .obj fs => .ok (fs.lookup "request_id")
  | v => .error (.attributeError (pyRepr v))

/-- The timeout test of `_wait_result` (client.py line 239):
`timeout and time.time() - started_at > timeout` — a timeout of `None`
or `0` never fires. -/
def timedOut (timeout : Option ℚ) (elapsed : ℚ) : Bool :=
  match timeout with
  | none => false
  | some t => if t = 0 then false else decide (t < elapsed)

/-- `timeout = timeout or self.request_timeout` (client.py line 218):
Python `or` falls through to the default when the explicit value is
`None` or `0`. -/
def pyOrTimeout (explicit default : Option ℚ) : Option ℚ :=
  match explicit with
  | none => default
  | some t => if t = 0 then default else some t

/-- The result of the blocking wait: the matched envelope, a raised
error, or — when the modelled poll trace is exhausted with the loop
still running — `pending`. -/
inductive WaitOutcome : Type where
  | ok (response : JObj)
  | err (e : PyErr)
  | pending
deriving DecidableEq, Repr

/-- The `if response:` block of one iteration of `_wait_result`
(client.py lines 233-237): `some out` when the iteration returns or
raises, `none` when the poll result is falsy or carries a non-matching
identifier and the loop goes on. -/
def pollMatch (request_id : String) (resp? : Option JObj) : Option WaitOutcome :=
  match resp? with
  | none => none
  | some resp =>
    if pyTruthy (.obj resp) then
      match extract_request_id resp with
      | .error e => some (.err e)
      | .ok received =>
        if received = some (.str request_id) then
          match handle_errors resp with
          | .error e => some (.err e)
          | .ok _ => some (.ok resp)
        else none
    else none

/-- `TelegramTDLibClient._wait_result` (client.py lines 228-240).  The
channel is modelled by a finite trace of poll results: each element is
the value returned by `receive(0.1)` (`none` when nothing arrived within
the poll interval) paired with the value `time.time()` has at that
iteration's timeout check. -/
def wait_result (request_id : String) (timeout : Option ℚ) (started_at : ℚ) :
    List (Option JObj × ℚ) → WaitOutcome
  | [] => .pending
  | (resp?, now) :: rest =>
    match pollMatch request_id resp? with
    | some out => out
    | none =>
      if timedOut timeout (now - started_at) then
        .err (.telega (.UnknownError "TimeOutError"))
      else wait_result request_id timeout started_at rest

/-- `data.update(params)`: existing keys keep their position and take the
new value, fresh keys are appended. -/
def pyUpdate (base updates : JObj) : JObj :=
  (base.map fun kv =>
    match updates.lookup kv.1 with
    | some v => (kv.1, v)
    | none => kv)
  ++ updates.filter fun kv => (base.lookup kv.1).isNone

/-- `TelegramTDLibClient.call_method` (client.py lines 216-226): resolve
the timeout, build the request envelope tagged with the fresh correlation
identifier (`uuid4().hex`, passed in as `request_id`), send it, and wait.
Returns the request envelope actually sent together with the wait
outcome. -/
def call_method (method_name : String) (request_id : String) (params : JObj)
    (timeout request_timeout : Option ℚ) (started_at : ℚ)
    (trace : List (Option JObj × ℚ)) : JObj × WaitOutcome :=
  let t := pyOrTimeout timeout request_timeout
  let data := pyUpdate
    [("@type", .str method_name),
     ("@extra", .obj [("request_id", .str request_id)])] params
  (data, wait_result request_id t started_at trace)

/-!
Service layer.  The higher-level methods of the client are built from
repeated `call_method` invocations.  They are modelled with an oracle for
the channel: each call receives the envelope that the correlator would
have matched for it, and the error classifier runs on that envelope
before it is used (exactly what `_wait_result` does before returning).
Offline single-item lookups (`getChat`, `getUser`, `getBasicGroupFullInfo`)
are modelled as deterministic functions of their argument, paginated calls
and authorization-state reads as a list of envelopes consumed in call
order; an exhausted list means the channel never answered that request
(`pending`).  Every request that the code sends is logged, in order, as a
(method name, parameters) pair; the `sleep(self.request_delay)` pacing
between pages has no observable effect in this embedding and is dropped. -/

/-- A request sent through the channel: method name and parameters. -/
abbrev Request := String × JObj

/-- One correlated call seen from the service layer: the classifier runs
on the matched envelope, which is returned unless an error was raised. -/
def callO (resp : JObj) : Except PyErr JObj :=
  match handle_errors resp with
  | .error e => .error e
  | .ok _ => .ok resp

/-! Authorization state constants of class `AuthStates` (client.py
lines 21-32). -/
namespace AuthStates

def Ready : String := "authorizationStateReady"

def WaitTdlibParameters : String := "authorizationStateWaitTdlibParameters"

def WaitEncryptionKey : String := "authorizationStateWaitEncryptionKey"

def WaitPhoneNumber : String := "authorizationStateWaitPhoneNumber"

def WaitCode : String := "authorizationStateWaitCode"

def WaitPassword : String := "authorizationStateWaitPassword"

def LoggingOut : String := "authorizationStateLoggingOut"

def Closing : String := "authorizationStateClosing"

def Closed : String := "authorizationStateClosed"

end AuthStates

/-- Outcome of a paginated listing call: the returned list, a raised
error, or — when the modelled response list is exhausted while the loop
still waits for an answer — `pending`. -/
inductive PagedOutcome (α : Type) : Type where
  | ok (val : α)
  | err (e : PyErr)
  | pending
deriving DecidableEq, Repr

/-- The inner `for chat_id in chat_id_list` loop of `get_all_chats`
(client.py lines 143-147): for every identifier not seen before, fetch
the chat with a `getChat` call and append it; `chatResp` is the
channel's (deterministic, offline) response to `getChat` for a given
identifier. -/
def addChats (chatResp : JVal → JObj) (chats : List JObj) (added : List JVal) :
    List JVal → List Request × Except PyErr (List JObj × List JVal)
  | [] => ([], .ok (chats, added))
  | cid :: rest =>
    if cid ∈ added then addChats chatResp chats added rest
    else
      let req : Request := ("getChat", [("chat_id", cid)])
      match callO (chatResp cid) with
      | .error e => ([req], .error e)
      | .ok chat =>
        let (reqs, out) := addChats chatResp (chats ++ [chat]) (added ++ [cid]) rest
        (req :: reqs, out)

/-- The `while has_next_page` loop of `get_all_chats` (client.py lines
138-153).  `pages` is the list of envelopes the channel produces for the
successive `getChats` requests; the loop body always runs, so the
request of the current page is logged even when no response ever
arrives. -/
def chatsLoop (chatResp : JVal → JObj) (ps : ℤ) (chats : List JObj)
    (added : List JVal) (offset_order : JVal) :
    List JObj → List Request × PagedOutcome (List JObj)
  | [] =>
    ([("getChats", [("offset_order", offset_order), ("offset_chat_id", .int 0),
      ("limit", .int ps)])], .pending)
  | page :: rest =>
    let req : Request := ("getChats",
      [("offset_order", offset_order), ("offset_chat_id", .int 0), ("limit", .int ps)])
    match callO page with
    | .error e => ([req], .err e)
    | .ok result =>
      match jlookup result "chat_ids" with
      | none => ([req], .err (.keyError "chat_ids"))
      | some chat_id_list =>
        match pyIter chat_id_list with
        | .error e => ([req], .err e)
        | .ok ids =>
          let (reqs1, r) := addChats chatResp chats added ids
          match r with
          | .error e => (req :: reqs1, .err e)
          | .ok (chats2, added2) =>
            if pyTruthy chat_id_list ∧ ¬ ((ids.length : ℤ) < ps) then
              match chats2.getLast? with
              | none => (req :: reqs1, .err (.indexError "list index out of range"))
              | some lastChat =>
                match jlookup lastChat "order" with
                | none => (req :: reqs1, .err (.keyError "order"))
                | some ord =>
                  let (reqs2, out) := chatsLoop chatResp ps chats2 added2 ord rest
                  (req :: reqs1 ++ reqs2, out)
            else (req :: reqs1, .ok chats2)

/-- `TelegramTDLibClient.get_all_chats` (client.py lines 128-155):
validate the page size, then run the cursor loop starting from
`offset_order = 2 ** 63 - 1`, `offset_chat_id = 0`. -/
def get_all_chats (chatResp : JVal → JObj) (ps : ℤ) (pages : List JObj) :
    List Request × PagedOutcome (List JObj) :=
  if ps ≤ 1 then ([], .err (.telega (.TDLibError "Invalid \"page_size\"")))
  else chatsLoop chatResp ps [] [] (.int (2 ^ 63 - 1)) pages

/-- The `for member in page` loop of `_get_super_group_members`
(client.py lines 199-202): keep each member whose `user_id` was not seen
before. -/
def addMembers (members added : List JVal) :
    List JVal → Except PyErr (List JVal × List JVal)
  | [] => .ok (members, added)
  | m :: rest =>
    match pyIndex m "user_id" with
    | .error e => .error e
    | .ok uid =>
      if uid ∈ added then addMembers members added rest
      else addMembers (members ++ [m]) (added ++ [uid]) rest

/-- The `while has_next_page` loop of `_get_super_group_members`
(client.py lines 193-210).  The request of each page evaluates
`chat['type']['supergroup_id']` afresh, so that lookup is performed (and
its failure raised) before the page's response is consumed; `pages` is
the list of envelopes answering the successive `getSupergroupMembers`
requests. -/
def superLoop (chat : JObj) (ps : ℤ) (members added : List JVal) (offset : ℤ) :
    List JObj → List Request × PagedOutcome (List JVal)
  | [] =>
    match pyIndex2 (.obj chat) "type" "supergroup_id" with
    | .error e => ([], .err e)
    | .ok sgid =>
      ([("getSupergroupMembers",
        [("supergroup_id", sgid), ("offset", .int offset), ("limit", .int ps)])],
       .pending)
  | resp :: rest =>
    match pyIndex2 (.obj chat) "type" "supergroup_id" with
    | .error e => ([], .err e)
    | .ok sgid =>
      let req : Request := ("getSupergroupMembers",
        [("supergroup_id", sgid), ("offset", .int offset), ("limit", .int ps)])
      match callO resp with
      | .error e => ([req], .err e)
      | .ok response =>
        match jlookup response "members" with
        | none => ([req], .err (.keyError "members"))
        | some pageV =>
          match jlookup response "total_count" with
          | none => ([req], .err (.keyError "total_count"))
          | some _ =>
            match pyIter pageV with
            | .error e => ([req], .err e)
            | .ok page =>
              match addMembers members added page with
              | .error e => ([req], .err e)
              | .ok (members2, added2) =>
                if page.length ≠ 0 then
                  let (reqs2, out) :=
                    superLoop chat ps members2 added2 (offset + (page.length : ℤ)) rest
                  (req :: reqs2, out)
                else ([req], .ok members2)

/-- `TelegramTDLibClient._get_super_group_members` (client.py lines
183-214): validate the page size, then run the offset loop from 0.  The
final `total_count != len(members)` comparison only logs a warning and
has no effect on the returned value. -/
def get_super_group_members (chat : JObj) (ps : ℤ) (pages : List JObj) :
    List Request × PagedOutcome (List JVal) :=
  if ps ≤ 1 then ([], .err (.telega (.TDLibError "Invalid \"page_size\"")))
  else superLoop chat ps [] [] 0 pages

/-- The list comprehension `[self.get_user(m['user_id']) for m in members]`
(client.py line 175); `userResp` is the channel's (deterministic,
offline) response to `getUser` for a given identifier. -/
def resolveUsers (userResp : JVal → JObj) :
    List JVal → List Request × Except PyErr (List JObj)
  | [] => ([], .ok [])
  | m :: rest =>
    match pyIndex m "user_id" with
    | .error e => ([], .error e)
    | .ok uid =>
      let req : Request := ("getUser", [("user_id", uid)])
      match callO (userResp uid) with
      | .error e => ([req], .error e)
      | .ok user =>
        match resolveUsers userResp rest with
        | (reqs, .error e) => (req :: reqs, .error e)
        | (reqs, .ok users) => (req :: reqs, .ok (user :: users))

/-- `TelegramTDLibClient.get_group_members` (client.py lines 157-176):
fetch the chat, dispatch on its group kind (basic group: one
`getBasicGroupFullInfo` call; supergroup: the offset page loop; anything
else: a generic `TDLibError`), then resolve every member through an
individual `getUser` call.  `basicResp` answers the
`getBasicGroupFullInfo` call. -/
def get_group_members (chatResp userResp : JVal → JObj) (basicResp : JObj)
    (group_id : JVal) (ps : ℤ) (pages : List JObj) :
    List Request × PagedOutcome (List JObj) :=
  let req0 : Request := ("getChat", [("chat_id", group_id)])
  match callO (chatResp group_id) with
  | .error e => ([req0], .err e)
  | .ok chat =>
    match pyIndex2 (.obj chat) "type" "@type" with
    | .error e => ([req0], .err e)
    | .ok tyTag =>
      if tyTag = .str "chatTypeBasicGroup" then
        match pyIndex2 (.obj chat) "type" "basic_group_id" with
        | .error e => ([req0], .err e)
        | .ok bgid =>
          let req1 : Request := ("getBasicGroupFullInfo", [("basic_group_id", bgid)])
          match callO basicResp with
          | .error e => ([req0, req1], .err e)
          | .ok info =>
            match pyIndex (.obj info) "members" with
            | .error e => ([req0, req1], .err e)
            | .ok membersV =>
              match pyIter membersV with
              | .error e => ([req0, req1], .err e)
              | .ok members =>
                match resolveUsers userResp members with
                | (reqs, .error e) => ([req0, req1] ++ reqs, .err e)
                | (reqs, .ok users) => ([req0, req1] ++ reqs, .ok users)
      else if tyTag = .str "chatTypeSupergroup" then
        match get_super_group_members chat ps pages with
        | (reqs, .err e) => (req0 :: reqs, .err e)
        | (reqs, .pending) => (req0 :: reqs, .pending)
        | (reqs, .ok members) =>
          match resolveUsers userResp members with
          | (reqs2, .error e) => (req0 :: reqs ++ reqs2, .err e)
          | (reqs2, .ok users) => (req0 :: reqs ++ reqs2, .ok users)
      else
        ([req0], .err (.telega (.TDLibError ("Unknown group type: " ++ pyStr tyTag))))

/-- Outcome of `send_sms_code`: normal return, a raised error, or a wait
on a response the modelled channel never produced. -/
inductive AuthOutcome : Type where
  | ok
  | err (e : PyErr)
  | pending
deriving DecidableEq, Repr

/-- Python falsiness of an optional string argument (`if not password:`
is taken both for an absent password and for an empty one). -/
def pyFalsyStr : Option String → Bool
  | none => true
  | some s => s = ""

/-- The trailing `self.get_auth_state()` of `send_sms_code` (client.py
line 115), one correlated `getAuthorizationState` call. -/
def sms_final_state (oracle : List JObj) : List Request × AuthOutcome :=
  let req : Request := ("getAuthorizationState", [])
  match oracle with
  | [] => ([req], .pending)
  | r :: _ =>
    match callO r with
    | .error e => ([req], .err e)
    | .ok res =>
      match pyIndex (.obj res) "@type" with
      | .error e => ([req], .err e)
      | .ok _ => ([req], .ok)

/-- The `WaitPassword` half of `send_sms_code` (client.py lines
109-115), entered with the authorization state observed so far: without
a (truthy) password it raises `TwoFactorPasswordNeeded` locally;
otherwise it submits the password and reads the state once more. -/
def sms_password_phase (password : Option String) (st : JVal)
    (oracle : List JObj) : List Request × AuthOutcome :=
  if st = .str AuthStates.WaitPassword then
    if pyFalsyStr password then ([], .err (.telega .TwoFactorPasswordNeeded))
    else
      let reqPw : Request := ("checkAuthenticationPassword",
        [("password", .str (password.getD ""))])
      match oracle with
      | [] => ([reqPw], .pending)
      | r :: o =>
        match callO r with
        | .error e => ([reqPw], .err e)
        | .ok _ =>
          let (reqs, out) := sms_final_state o
          (reqPw :: reqs, out)
  else sms_final_state oracle

/-- `TelegramTDLibClient.send_sms_code` (client.py lines 103-115): read
the authorization state; in `WaitCode` submit the code and re-read the
state; in `WaitPassword` require a password (raising
`TwoFactorPasswordNeeded` locally when it is absent) and submit it; then
read the state a final time.  `oracle` lists the envelopes matched for
the successive correlated calls. -/
def send_sms_code (sms_code : String) (password : Option String)
    (oracle : List JObj) : List Request × AuthOutcome :=
  let reqState : Request := ("getAuthorizationState", [])
  match oracle with
  | [] => ([reqState], .pending)
  | r1 :: o1 =>
    match callO r1 with
    | .error e => ([reqState], .err e)
    | .ok res1 =>
      match pyIndex (.obj res1) "@type" with
      | .error e => ([reqState], .err e)
      | .ok st1 =>
        if st1 = .str AuthStates.WaitCode then
          let reqCode : Request := ("checkAuthenticationCode", [("code", .str sms_code)])
          match o1 with
          | [] => ([reqState, reqCode], .pending)
          | r2 :: o2 =>
            match callO r2 with
            | .error e => ([reqState, reqCode], .err e)
            | .ok _ =>
              match o2 with
              | [] => ([reqState, reqCode, reqState], .pending)
              | r3 :: o3 =>
                match callO r3 with
                | .error e => ([reqState, reqCode, reqState], .err e)
                | .ok res3 =>
                  match pyIndex (.obj res3) "@type" with
                  | .error e => ([reqState, reqCode, reqState], .err e)
                  | .ok st3 =>
                    let (reqs, out) := sms_password_phase password st3 o3
                    ([reqState, reqCode, reqState] ++ reqs, out)
        else
          let (reqs, out) := sms_password_phase password st1 o1
          (reqState :: reqs, out)

/-!  Correlator lemmas and claims C1, C2, C3, C10.  -/

/-- A poll result that cannot match the awaited identifier: nothing
arrived within the poll interval, a falsy envelope, or an envelope whose
extracted identifier is a value other than `some (.str request_id)`
(an envelope on which the extraction itself blows up is not included). -/
def nonMatching (request_id : String) : Option JObj → Bool
  | none => true
  | some resp =>
    !pyTruthy (.obj resp) ||
      (match extract_request_id resp with
       | .ok received => received != some (.str request_id)
       | .error _ => false)

/-- The timeout error raised at client.py line 240, and nothing else:
`UnknownError` with the exact message `TimeOutError`. -/
def isTimeoutOutcome : WaitOutcome → Bool
  | .err (.telega (.UnknownError m)) => m = "TimeOutError"
  | _ => false

theorem pollMatch_eq_none (rid : String) (r? : Option JObj)
    (h1 : nonMatching rid r? = true) : pollMatch rid r? = none := by
  cases r? with
  | none => rfl
  | some resp =>
    by_cases htr : pyTruthy (.obj resp)
    · cases hex : extract_request_id resp with
      | error e => simp [nonMatching, htr, hex] at h1
      | ok received =>
        have hne : received ≠ some (.str rid) := by
          simpa [nonMatching, htr, hex] using h1
        simp [pollMatch, htr, hex, hne]
    · simp [pollMatch, htr]

theorem pollMatch_ok (rid : String) (r? : Option JObj) (resp : JObj)
    (h : pollMatch rid r? = some (.ok resp)) :
    extract_request_id resp = .ok (some (.str rid)) := by
  cases r? with
  | none => simp [pollMatch] at h
  | some env =>
    by_cases htr : pyTruthy (.obj env)
    · cases hex : extract_request_id env with
      | error e => simp [pollMatch, htr, hex] at h
      | ok received =>
        by_cases hrec : received = some (.str rid)
        · cases hhe : handle_errors env with
          | error e => simp [pollMatch, htr, hex, hrec, hhe] at h
          | ok u =>
            have henv : env = resp := by
              simpa [pollMatch, htr, hex, hrec, hhe] using h
            rw [← henv, hex, hrec]
        · simp [pollMatch, htr, hex, hrec] at h
    · simp [pollMatch, htr] at h

theorem wait_result_skip (rid : String) (t : Option ℚ) (s : ℚ) (r? : Option JObj)
    (now : ℚ) (rest : List (Option JObj × ℚ))
    (h1 : nonMatching rid r? = true) (h2 : timedOut t (now - s) = false) :
    wait_result rid t s ((r?, now) :: rest) = wait_result rid t s rest := by
  rw [wait_result, pollMatch_eq_none rid r? h1, h2]
  simp

theorem wait_result_ok_matches (rid : String) (t : Option ℚ) (s : ℚ) :
    ∀ trace resp, wait_result rid t s trace = .ok resp →
      extract_request_id resp = .ok (some (.str rid)) := by
  intro trace
  induction trace with
  | nil => intro resp h; simp [wait_result] at h
  | cons p rest ih =>
    obtain ⟨r?, now⟩ := p
    intro resp h
    rw [wait_result] at h
    cases hpm : pollMatch rid r? with
    | some out =>
      rw [hpm] at h
      cases out with
      | ok env =>
        simp only [WaitOutcome.ok.injEq] at h
        exact h ▸ pollMatch_ok rid r? env hpm
      | err e => simp at h
      | pending => simp at h
    | none =>
      rw [hpm] at h
      simp only at h
      by_cases hto : timedOut t (now - s) = true
      · rw [if_pos hto] at h
        exact absurd h (by simp)
      · rw [if_neg hto] at h
        exact ih resp h

/-- C1: a call that returns normally returns an envelope carrying the
identifier attached to the request; any finite amount of non-matching
traffic delivered first is discarded and leaves the call's behaviour
unchanged. -/
theorem claim_C1 (mn rid : String) (params : JObj) (t rt : Option ℚ) (s : ℚ)
    (junk trace : List (Option JObj × ℚ))
    (hp : params.lookup "@extra" = none)
    (hjunk : ∀ p ∈ junk, nonMatching rid p.1 = true ∧
        timedOut (pyOrTimeout t rt) (p.2 - s) = false) :
    call_method mn rid params t rt s (junk ++ trace) =
        call_method mn rid params t rt s trace ∧
    jlookup (call_method mn rid params t rt s trace).1 "@extra" =
        some (.obj [("request_id", .str rid)]) ∧
    ∀ resp, (call_method mn rid params t rt s trace).2 = .ok resp →
        extract_request_id resp = .ok (some (.str rid)) := by
  refine ⟨?_, ?_, ?_⟩
  · unfold call_method
    simp only [Prod.mk.injEq, true_and]
    induction junk with
    | nil => simp
    | cons p ps ih =>
      obtain ⟨r?, now⟩ := p
      rw [List.cons_append,
        wait_result_skip rid _ s r? now _ (hjunk (r?, now) (List.mem_cons_self _ _)).1
          (hjunk (r?, now) (List.mem_cons_self _ _)).2]
      exact ih fun q hq => hjunk q (List.mem_cons_of_mem _ hq)
  · unfold call_method
    rcases h1 : List.lookup "@type" params with _ | v <;>
      simp [pyUpdate, jlookup, List.lookup, hp, h1]
  · intro resp h
    exact wait_result_ok_matches rid _ s trace resp h

/-- C1 witness: one unrelated envelope precedes the matching one; the
call is unchanged by it and the returned envelope carries the request's
identifier. -/
theorem claim_C1_witness :
    call_method "getMe" "abc" [] (some 10) none 0
        ((some [("@extra", JVal.obj [("request_id", JVal.str "zzz")])], (1 : ℚ)) ::
          [(some [("@type", JVal.str "ok"),
            ("@extra", JVal.obj [("request_id", JVal.str "abc")])], (2 : ℚ))]) =
      call_method "getMe" "abc" [] (some 10) none 0
        [(some [("@type", JVal.str "ok"),
          ("@extra", JVal.obj [("request_id", JVal.str "abc")])], (2 : ℚ))] ∧
    extract_request_id [("@type", JVal.str "ok"),
        ("@extra", JVal.obj [("request_id", JVal.str "abc")])] =
      .ok (some (.str "abc")) := by
  have h := claim_C1 "getMe" "abc" [] (some 10) none 0
    [(some [("@extra", JVal.obj [("request_id", JVal.str "zzz")])], (1 : ℚ))]
    [(some [("@type", JVal.str "ok"),
      ("@extra", JVal.obj [("request_id", JVal.str "abc")])], (2 : ℚ))]
    (by decide)
    (by
      rintro p hp
      rcases List.mem_singleton.mp hp with rfl
      refine ⟨by decide, by norm_num [timedOut, pyOrTimeout]⟩)
  exact ⟨h.1, h.2.2 _ rfl⟩

theorem wait_result_times_out (rid : String) (T : ℚ) (s : ℚ) (hpos : 0 < T) :
    ∀ trace, (∀ p ∈ trace, nonMatching rid p.1 = true) →
      (∃ p ∈ trace, T < p.2 - s) →
      wait_result rid (some T) s trace =
        .err (.telega (.UnknownError "TimeOutError")) := by
  intro trace
  induction trace with
  | nil => intro _ hex; simp at hex
  | cons p rest ih =>
    obtain ⟨r?, now⟩ := p
    intro hnm hex
    rw [wait_result, pollMatch_eq_none rid r? (hnm (r?, now) (List.mem_cons_self _ _))]
    by_cases hto : timedOut (some T) (now - s) = true
    · simp [hto]
    · simp only [hto]
      rw [if_neg (by simp [hto])]
      apply ih (fun q hq => hnm q (List.mem_cons_of_mem _ hq))
      rcases hex with ⟨q, hq, hTq⟩
      rcases List.mem_cons.mp hq with rfl | hq2
      · exfalso
        apply hto
        simp only [timedOut, if_neg hpos.ne', decide_eq_true_eq]
        exact hTq
      · exact ⟨q, hq2, hTq⟩

/-- C2: when the resolved timeout is positive and the channel never
produces a matching envelope, the call raises `UnknownError
'TimeOutError'` as soon as an iteration's elapsed wall-clock time
exceeds the timeout, instead of returning a value or polling forever. -/
theorem claim_C2 (mn rid : String) (params : JObj) (t rt : Option ℚ) (s : ℚ)
    (trace : List (Option JObj × ℚ)) (T : ℚ)
    (hres : pyOrTimeout t rt = some T) (hpos : 0 < T)
    (hnm : ∀ p ∈ trace, nonMatching rid p.1 = true)
    (hex : ∃ p ∈ trace, T < p.2 - s) :
    (call_method mn rid params t rt s trace).2 =
      .err (.telega (.UnknownError "TimeOutError")) := by
  unfold call_method
  simp only [hres]
  exact wait_result_times_out rid T s hpos trace hnm hex

/-- C2 witness: a channel that only ever delivers unrelated traffic, a
timeout of 3 and a poll seen 4 time units after the start. -/
theorem claim_C2_witness :
    (call_method "getMe" "abc" [] (some 3) (some 60) 0
        [(some [("@extra", JVal.obj [("request_id", JVal.str "zzz")])], (1 : ℚ)),
         (none, (4 : ℚ))]).2 =
      .err (.telega (.UnknownError "TimeOutError")) := by
  apply claim_C2 "getMe" "abc" [] (some 3) (some 60) 0 _ 3
  · norm_num [pyOrTimeout]
  · norm_num
  · rintro p hp
    rcases List.mem_cons.mp hp with rfl | hp2
    · decide
    · rcases List.mem_singleton.mp hp2 with rfl
      decide
  · exact ⟨(none, (4 : ℚ)), by simp, by norm_num⟩

theorem handle_errors_ne_timeout (r : JObj) :
    handle_errors r ≠ .error (.telega (.UnknownError "TimeOutError")) := by
  have hlen : ∀ c m : JVal,
      ("Telegram error: " ++ pyStr c ++ " -> " ++ pyStr m) ≠ "TimeOutError" := by
    intro c m h
    have h2 := congrArg String.length h
    simp only [String.length_append] at h2
    have e1 : ("Telegram error: ").length = 16 := rfl
    have e2 : (" -> ").length = 4 := rfl
    have e3 : ("TimeOutError").length = 12 := rfl
    omega
  rw [handle_errors]
  split
  · simp
  · split
    · dsimp only
      split
      · simp
      · split
        · simp
        · split
          · simp
          · split
            · simp
            · split
              · simp
              · split
                · simp
                · split
                  · simp
                  · split
                    · simp
                    · split
                      · simp
                      · simp only [ne_eq, Except.error.injEq, PyErr.telega.injEq,
                          TelegaError.UnknownError.injEq]
                        exact hlen _ _
    · simp

theorem isTimeoutOutcome_eq_true_iff (out : WaitOutcome) :
    isTimeoutOutcome out = true ↔
      out = .err (.telega (.UnknownError "TimeOutError")) := by
  unfold isTimeoutOutcome
  split
  · next m => simp
  · next hno =>
    simp only [Bool.false_eq_true, false_iff]
    intro heq
    exact hno "TimeOutError" heq

theorem pollMatch_not_timeout (rid : String) (r? : Option JObj) (out : WaitOutcome)
    (h : pollMatch rid r? = some out) : isTimeoutOutcome out = false := by
  rw [Bool.eq_false_iff, ne_eq, isTimeoutOutcome_eq_true_iff]
  intro htrue
  subst htrue
  cases r? with
  | none => simp [pollMatch] at h
  | some env =>
    by_cases htr : pyTruthy (.obj env)
    · cases hex : extract_request_id env with
      | error e =>
        have h2 : e = .telega (.UnknownError "TimeOutError") := by
          simpa [pollMatch, htr, hex] using h
        rw [extract_request_id] at hex
        split at hex
        · simp at hex
        · rw [h2] at hex
          simp at hex
      | ok received =>
        by_cases hrec : received = some (.str rid)
        · cases hhe : handle_errors env with
          | error e =>
            have h2 : e = .telega (.UnknownError "TimeOutError") := by
              simpa [pollMatch, htr, hex, hrec, hhe] using h
            exact handle_errors_ne_timeout env (by rw [hhe, h2])
          | ok u => simp [pollMatch, htr, hex, hrec, hhe] at h
        · simp [pollMatch, htr, hex, hrec] at h
    · simp [pollMatch, htr] at h

theorem wait_result_no_timeout (rid : String) (t : Option ℚ) (s : ℚ)
    (ht : ∀ e, timedOut t e = false) :
    ∀ trace, isTimeoutOutcome (wait_result rid t s trace) = false := by
  intro trace
  induction trace with
  | nil => simp [wait_result, isTimeoutOutcome]
  | cons p rest ih =>
    obtain ⟨r?, now⟩ := p
    rw [wait_result]
    cases hpm : pollMatch rid r? with
    | some out => exact pollMatch_not_timeout rid r? out hpm
    | none =>
      rw [ht (now - s)]
      simpa using ih

/-- C3 counterexample: with a configured default of 1 and an explicitly
supplied per-call timeout of 0, the call still raises the timeout error
(the explicit 0 falls through Python's `or` to the default instead of
overriding it), whereas a configured default of 0 with no explicit
value waits indefinitely. -/
theorem claim_C3_counterexample :
    isTimeoutOutcome
        (call_method "getMe" "r" [] (some 0) (some 1) 0 [(none, (2 : ℚ))]).2 = true ∧
    isTimeoutOutcome
        (call_method "getMe" "r" [] none (some 0) 0 [(none, (2 : ℚ))]).2 = false := by
  constructor <;>
    norm_num [call_method, wait_result, pollMatch, pyOrTimeout, timedOut,
      isTimeoutOutcome]

/-- C3 (amended): a default timeout of zero/`None` with no explicit
per-call value means the wait is indefinite (the timeout error is never
raised), and an explicit non-zero per-call timeout overrides the
configured default (the call's behaviour does not depend on the default
at all); an explicit per-call timeout of zero/`None`, however, falls
back to the default. -/
theorem claim_C3 :
    (∀ (mn rid : String) (params : JObj) (rt : Option ℚ) (s : ℚ)
        (trace : List (Option JObj × ℚ)), rt = none ∨ rt = some 0 →
      isTimeoutOutcome (call_method mn rid params none rt s trace).2 = false) ∧
    (∀ (u : ℚ), u ≠ 0 → ∀ (rt rt2 : Option ℚ) (mn rid : String) (params : JObj)
        (s : ℚ) (trace : List (Option JObj × ℚ)),
      pyOrTimeout (some u) rt = some u ∧
      call_method mn rid params (some u) rt s trace =
        call_method mn rid params (some u) rt2 s trace) := by
  constructor
  · rintro mn rid params rt s trace (rfl | rfl) <;>
    · unfold call_method
      simp only [pyOrTimeout]
      exact wait_result_no_timeout rid _ s (fun e => by simp [timedOut]) trace
  · intro u hu rt rt2 mn rid params s trace
    constructor
    · simp [pyOrTimeout, hu]
    · unfold call_method
      simp [pyOrTimeout, hu]

/-- C3 witness: a zero default with no explicit value never times out;
an explicit timeout of 5 resolves to 5 and makes the call independent of
the configured default. -/
theorem claim_C3_witness :
    isTimeoutOutcome
        (call_method "getMe" "r" [] none (some 0) 0 [(none, (100 : ℚ))]).2 = false ∧
    (pyOrTimeout (some 5) (some 60) = some 5 ∧
      call_method "getMe" "r" [] (some 5) (some 60) 0 [(none, (1 : ℚ))] =
        call_method "getMe" "r" [] (some 5) (some 7) 0 [(none, (1 : ℚ))]) :=
  ⟨claim_C3.1 "getMe" "r" [] (some 0) 0 [(none, (100 : ℚ))] (Or.inr rfl),
   claim_C3.2 5 (by norm_num) (some 60) (some 7) "getMe" "r" [] 0 [(none, (1 : ℚ))]⟩

/-- C10 counterexample: a dictionary-shaped envelope whose `'@extra'`
value is the integer 5 makes the matching step of `_wait_result` raise
`AttributeError` (`.get` on a non-dict), so the loop body is not total
over arbitrary dictionary-shaped envelopes. -/
theorem claim_C10_counterexample :
    wait_result "rid" (some 100) 0 [(some [("@extra", JVal.int 5)], (1 : ℚ))] =
      .err (.attributeError "5") := rfl

/-- C10 (amended): an envelope that lacks `'@extra'`, or whose
`'@extra'` dict lacks `'request_id'`, is discarded without any exception
and can never be matched: the identifier extraction succeeds (provided
the `'@extra'` value, when present, is itself a dict) and the loop falls
through to the timeout check and the next poll. -/
theorem claim_C10 (resp : JObj) (rid : String) (t : Option ℚ) (s now : ℚ)
    (rest : List (Option JObj × ℚ))
    (hsh : ∀ v, jlookup resp "@extra" = some v → ∃ fs, v = .obj fs) :
    (∃ w, extract_request_id resp = .ok w) ∧
    ((∀ fs, jlookup resp "@extra" = some (.obj fs) → fs.lookup "request_id" = none) →
      extract_request_id resp = .ok none ∧
      wait_result rid t s ((some resp, now) :: rest) =
        (if timedOut t (now - s) then .err (.telega (.UnknownError "TimeOutError"))
         else wait_result rid t s rest)) := by
  constructor
  · cases hx : jlookup resp "@extra" with
    | none => exact ⟨none, by simp [extract_request_id, hx]⟩
    | some v =>
      obtain ⟨fs, rfl⟩ := hsh v hx
      exact ⟨fs.lookup "request_id", by simp [extract_request_id, hx]⟩
  · intro hno
    have hok : extract_request_id resp = .ok none := by
      cases hx : jlookup resp "@extra" with
      | none => simp [extract_request_id, hx]
      | some v =>
        obtain ⟨fs, rfl⟩ := hsh v hx
        simp [extract_request_id, hx, hno fs hx]
    refine ⟨hok, ?_⟩
    have hpm : pollMatch rid (some resp) = none := by
      by_cases htr : pyTruthy (.obj resp) <;> simp [pollMatch, htr, hok]
    rw [wait_result, hpm]

/-- C10 witness: an envelope with no `'@extra'` key at all is extracted
to `none`, not matched, and the loop proceeds to the next poll. -/
theorem claim_C10_witness :
    (∃ w, extract_request_id [("@type", JVal.str "updateOption")] = .ok w) ∧
    (extract_request_id [("@type", JVal.str "updateOption")] = .ok none ∧
      wait_result "rid" none 0 [(some [("@type", JVal.str "updateOption")], (1 : ℚ))] =
        (if timedOut none ((1 : ℚ) - 0) then
          .err (.telega (.UnknownError "TimeOutError"))
         else wait_result "rid" none 0 [])) := by
  have h := claim_C10 [("@type", JVal.str "updateOption")] "rid" none 0 1 []
    (by intro v hv; simp [jlookup, List.lookup] at hv)
  exact ⟨h.1, h.2 (by intro fs hfs; simp [jlookup, List.lookup] at hfs)⟩

/-!  Chat pagination: claim C5.  The loop is first proved equal to a
transparent recursion over the identifier pages (`specChats`), and the
claimed properties are then read off that recursion.  -/

/-- Feed a list of identifiers into the seen-set, keeping the first
occurrence of each — the set-based deduplication of the listing loops. -/
def dedupInto (added : List JVal) : List JVal → List JVal
  | [] => added
  | x :: rest =>
    if x ∈ added then dedupInto added rest else dedupInto (added ++ [x]) rest

/-- The identifiers of a page that are new relative to the seen-set, in
page order. -/
def newOnes (added : List JVal) : List JVal → List JVal
  | [] => []
  | x :: rest =>
    if x ∈ added then newOnes added rest else x :: newOnes (added ++ [x]) rest

theorem dedupInto_eq_append (l added : List JVal) :
    dedupInto added l = added ++ newOnes added l := by
  induction l generalizing added with
  | nil => simp [dedupInto, newOnes]
  | cons x rest ih =>
    by_cases hx : x ∈ added
    · simp [dedupInto, newOnes, hx, ih]
    · simp [dedupInto, newOnes, hx, ih (added ++ [x])]

theorem dedupInto_append (l1 l2 added : List JVal) :
    dedupInto added (l1 ++ l2) = dedupInto (dedupInto added l1) l2 := by
  induction l1 generalizing added with
  | nil => simp [dedupInto]
  | cons x rest ih =>
    by_cases hx : x ∈ added <;> simp [dedupInto, hx, ih]

theorem newOnes_sublist (l : List JVal) :
    ∀ added, List.Sublist (newOnes added l) l := by
  induction l with
  | nil => intro added; simp [newOnes]
  | cons x rest ih =>
    intro added
    by_cases hx : x ∈ added
    · simpa [newOnes, hx] using (ih added).cons x
    · simpa [newOnes, hx] using (ih (added ++ [x])).cons₂ x

theorem dedupInto_nodup (l : List JVal) :
    ∀ added, added.Nodup → (dedupInto added l).Nodup := by
  induction l with
  | nil => intro added h; simpa [dedupInto] using h
  | cons x rest ih =>
    intro added h
    by_cases hx : x ∈ added
    · simpa [dedupInto, hx] using ih added h
    · have h2 : (added ++ [x]).Nodup := by
        rw [← List.concat_eq_append]
        exact List.Nodup.concat hx h
      simpa [dedupInto, hx] using ih (added ++ [x]) h2

theorem dedupInto_ne_nil (l added : List JVal) (h : l ≠ [] ∨ added ≠ []) :
    dedupInto added l ≠ [] := by
  rcases h with h | h
  · cases l with
    | nil => exact absurd rfl h
    | cons x rest =>
      by_cases hx : x ∈ added
      · have ha : added ≠ [] := fun e => by simp [e] at hx
        rw [dedupInto_eq_append]
        simp [hx, ha]
      · rw [dedupInto_eq_append]
        simp [newOnes, hx]
  · rw [dedupInto_eq_append]
    simp [h]

/-- The `offset_order` values of the `getChats` requests in a request
log, in order. -/
def getChatsCursors (reqs : List Request) : List JVal :=
  reqs.filterMap fun r =>
    if r.1 = "getChats" then List.lookup "offset_order" r.2 else none

/-- What one run of the `get_all_chats` loop does, written as a direct
recursion over the identifier pages the channel hands back: accumulate
first occurrences, request every new identifier, stop at the first page
that is empty or shorter than `ps`, and move the cursor to the order of
the last accumulated chat between full pages. -/
def specChats (chatResp : JVal → JObj) (orderOf : JVal → JVal) (ps : ℤ)
    (added : List JVal) (offset_order : JVal) :
    List (List JVal) → List Request × PagedOutcome (List JObj)
  | [] =>
    ([("getChats", [("offset_order", offset_order), ("offset_chat_id", .int 0),
      ("limit", .int ps)])], .pending)
  | ids :: rest =>
    let req : Request := ("getChats",
      [("offset_order", offset_order), ("offset_chat_id", .int 0), ("limit", .int ps)])
    let reqs1 : List Request :=
      (newOnes added ids).map fun cid => ("getChat", [("chat_id", cid)])
    let added2 := dedupInto added ids
    if ids ≠ [] ∧ ¬ ((ids.length : ℤ) < ps) then
      let (reqs2, out) := specChats chatResp orderOf ps added2
        (orderOf (added2.getLast?.getD .null)) rest
      (req :: reqs1 ++ reqs2, out)
    else (req :: reqs1, .ok (added2.map chatResp))

theorem addChats_spec (chatResp : JVal → JObj)
    (hCR : ∀ v, handle_errors (chatResp v) = .ok ()) :
    ∀ ids added, addChats chatResp (added.map chatResp) added ids =
      ((newOnes added ids).map fun cid => ("getChat", [("chat_id", cid)]),
       .ok ((dedupInto added ids).map chatResp, dedupInto added ids)) := by
  intro ids
  induction ids with
  | nil => intro added; simp [addChats, newOnes, dedupInto]
  | cons cid rest ih =>
    intro added
    by_cases hx : cid ∈ added
    · simp [addChats, newOnes, dedupInto, hx, ih added]
    · have key := ih (added ++ [cid])
      simp only [List.map_append, List.map_cons, List.map_nil] at key
      simp [addChats, newOnes, dedupInto, hx, callO, hCR cid, key]

theorem truthyCond (ids : List JVal) (ps : ℤ) :
    (pyTruthy (.arr ids) = true ∧ ¬ ((ids.length : ℤ) < ps)) ↔
      (ids ≠ [] ∧ ¬ ((ids.length : ℤ) < ps)) := by
  simp [pyTruthy, List.isEmpty_iff]

theorem chatsLoop_eq_specChats (chatResp : JVal → JObj) (orderOf : JVal → JVal)
    (ps : ℤ)
    (hCR : ∀ v, handle_errors (chatResp v) = .ok ())
    (hOrd : ∀ v, jlookup (chatResp v) "order" = some (orderOf v)) :
    ∀ pages idss added oo,
      List.Forall₂ (fun (r : JObj) (ids : List JVal) =>
        handle_errors r = .ok () ∧ jlookup r "chat_ids" = some (.arr ids))
        pages idss →
      chatsLoop chatResp ps (added.map chatResp) added oo pages =
        specChats chatResp orderOf ps added oo idss := by
  intro pages
  induction pages with
  | nil =>
    intro idss added oo h
    cases h
    simp [chatsLoop, specChats]
  | cons page rest ih =>
    intro idss added oo h
    cases h with
    | cons hhead htail =>
      rename_i ids idss2
      obtain ⟨hok, hids⟩ := hhead
      have hstep := addChats_spec chatResp hCR ids added
      rw [chatsLoop, specChats]
      simp only [callO, hok, hids, pyIter, hstep]
      rw [if_congr (truthyCond ids ps) rfl rfl]
      by_cases hc : ids ≠ [] ∧ ¬ ((ids.length : ℤ) < ps)
      · rw [if_pos hc, if_pos hc]
        have hne : dedupInto added ids ≠ [] :=
          dedupInto_ne_nil ids added (Or.inl hc.1)
        rcases hlast : (dedupInto added ids).getLast? with _ | a
        · exact absurd (List.getLast?_eq_none_iff.mp hlast) hne
        · have hmlast : ((dedupInto added ids).map chatResp).getLast? =
            some (chatResp a) := by
            rw [List.getLast?_map, hlast]
            rfl
          rw [hmlast]
          simp only [hOrd a, hlast, Option.getD_some]
          rw [ih idss2 (dedupInto added ids) (orderOf a) htail]
      · rw [if_neg hc, if_neg hc]

theorem getChatsCursors_cons_getChats (oo : JVal) (ps : ℤ) (reqs : List Request) :
    getChatsCursors (("getChats",
        [("offset_order", oo), ("offset_chat_id", .int 0),
         ("limit", .int ps)]) :: reqs) =
      oo :: getChatsCursors reqs := by
  simp [getChatsCursors, List.filterMap_cons, List.lookup]

theorem getChatsCursors_getChatMap (l : List JVal) :
    getChatsCursors (l.map fun cid => ("getChat", [("chat_id", cid)])) = [] := by
  induction l with
  | nil => rfl
  | cons x rest ih =>
    simp only [getChatsCursors, List.map_cons, List.filterMap_cons] at ih ⊢
    simpa using ih

theorem getChatsCursors_append (r1 r2 : List Request) :
    getChatsCursors (r1 ++ r2) = getChatsCursors r1 ++ getChatsCursors r2 := by
  simp [getChatsCursors, List.filterMap_append]

theorem specChats_facts (chatResp : JVal → JObj) (orderOf : JVal → JVal) (ps : ℤ) :
    ∀ idss added oo k,
      k = idss.findIdx (fun ids => ids.isEmpty || decide ((ids.length : ℤ) < ps)) →
      k < idss.length →
      (specChats chatResp orderOf ps added oo idss).2 =
          .ok ((dedupInto added ((idss.take (k + 1)).flatten)).map chatResp) ∧
      getChatsCursors (specChats chatResp orderOf ps added oo idss).1 =
          oo :: ((List.range k).map fun i =>
            orderOf ((dedupInto added
              ((idss.take (i + 1)).flatten)).getLast?.getD .null)) := by
  intro idss
  induction idss with
  | nil => intro added oo k hk hlt; simp at hlt
  | cons ids rest ih =>
    intro added oo k hk hlt
    rw [List.findIdx_cons] at hk
    by_cases hs : (ids.isEmpty || decide ((ids.length : ℤ) < ps)) = true
    · rw [hs, cond_true] at hk
      subst hk
      have hcond : ¬ (ids ≠ [] ∧ ¬ ((ids.length : ℤ) < ps)) := by
        simp only [List.isEmpty_iff, Bool.or_eq_true, decide_eq_true_eq] at hs
        rcases hs with h | h
        · exact fun hc => hc.1 h
        · exact fun hc => hc.2 h
      rw [specChats, if_neg hcond]
      constructor
      · simp
      · rw [getChatsCursors_cons_getChats]
        simp [getChatsCursors_getChatMap]
    · rw [Bool.of_not_eq_true hs, cond_false] at hk
      subst hk
      simp only [List.length_cons, Nat.add_lt_add_iff_right] at hlt
      have hcond : ids ≠ [] ∧ ¬ ((ids.length : ℤ) < ps) := by
        simp only [Bool.or_eq_true, decide_eq_true_eq, List.isEmpty_iff,
          not_or] at hs
        exact hs
      rw [specChats, if_pos hcond]
      have ihh := ih (dedupInto added ids)
        (orderOf ((dedupInto added ids).getLast?.getD .null))
        (rest.findIdx (fun ids => ids.isEmpty || decide ((ids.length : ℤ) < ps)))
        rfl hlt
      rcases hrec : specChats chatResp orderOf ps (dedupInto added ids)
          (orderOf ((dedupInto added ids).getLast?.getD .null)) rest
        with ⟨reqs2, out⟩
      rw [hrec] at ihh
      simp only at ihh
      dsimp only
      constructor
      · rw [ihh.1, List.take_succ_cons, List.flatten_cons, dedupInto_append]
      · rw [getChatsCursors_append, getChatsCursors_cons_getChats,
          getChatsCursors_getChatMap, ihh.2,
          List.range_succ_eq_map, List.map_cons, List.map_map]
        simp only [List.cons_append, List.nil_append]
        congr 1
        congr 1
        · simp
        · apply List.map_congr_left
          intro i _
          simp only [Function.comp_apply]
          rw [List.take_succ_cons, List.flatten_cons, dedupInto_append]

/-- C5: with well-formed channel responses, whenever some returned
identifier page is empty or shorter than `page_size`, chat listing
terminates, detecting end-of-data exactly at the first such page (one
`getChats` request per page up to and including it); it returns the
fetched chats of the first occurrence of each identifier in page order —
a duplicate-free, order-preserving subsequence of the served identifiers
even when pages overlap — and every `getChats` request after the first
carries as `offset_order` cursor the order field of the chat accumulated
last at that point. -/
theorem claim_C5 (chatResp : JVal → JObj) (orderOf : JVal → JVal) (ps : ℤ)
    (pages : List JObj) (idss : List (List JVal)) (k : ℕ)
    (hps : 1 < ps)
    (hCR : ∀ v, handle_errors (chatResp v) = .ok ())
    (hOrd : ∀ v, jlookup (chatResp v) "order" = some (orderOf v))
    (hWF : List.Forall₂ (fun (r : JObj) (ids : List JVal) =>
        handle_errors r = .ok () ∧ jlookup r "chat_ids" = some (.arr ids))
        pages idss)
    (hk : k = idss.findIdx (fun ids => ids.isEmpty || decide ((ids.length : ℤ) < ps)))
    (hshort : k < idss.length) :
    (get_all_chats chatResp ps pages).2 =
        .ok ((dedupInto [] ((idss.take (k + 1)).flatten)).map chatResp) ∧
    (dedupInto [] ((idss.take (k + 1)).flatten)).Nodup ∧
    List.Sublist (dedupInto [] ((idss.take (k + 1)).flatten))
      ((idss.take (k + 1)).flatten) ∧
    getChatsCursors (get_all_chats chatResp ps pages).1 =
        .int (2 ^ 63 - 1) :: ((List.range k).map fun i =>
          orderOf ((dedupInto []
            ((idss.take (i + 1)).flatten)).getLast?.getD .null)) := by
  have hloop : get_all_chats chatResp ps pages =
      specChats chatResp orderOf ps [] (.int (2 ^ 63 - 1)) idss := by
    rw [get_all_chats, if_neg (by omega)]
    have h := chatsLoop_eq_specChats chatResp orderOf ps hCR hOrd pages idss []
      (.int (2 ^ 63 - 1)) hWF
    simpa using h
  have hfacts := specChats_facts chatResp orderOf ps idss [] (.int (2 ^ 63 - 1))
    k hk hshort
  refine ⟨?_, ?_, ?_, ?_⟩
  · rw [hloop]
    exact hfacts.1
  · exact dedupInto_nodup _ [] List.nodup_nil
  · rw [dedupInto_eq_append, List.nil_append]
    exact newOnes_sublist _ []
  · rw [hloop]
    exact hfacts.2

/-- C5 witness: three pages with overlapping identifiers `[1,2]`,
`[2,3]`, `[3]` and page size 2: the loop stops at the third (short)
page, each chat appears once in first-seen order, and the second and
third requests carry the last accumulated chat's order as cursor. -/
theorem claim_C5_witness :
    (get_all_chats
        (fun v => [("@type", JVal.str "chat"), ("id", v), ("order", JVal.int 7)]) 2
        [[("@type", JVal.str "chats"), ("chat_ids", JVal.arr [.int 1, .int 2])],
         [("@type", JVal.str "chats"), ("chat_ids", JVal.arr [.int 2, .int 3])],
         [("@type", JVal.str "chats"), ("chat_ids", JVal.arr [.int 3])]]).2 =
      .ok [[("@type", JVal.str "chat"), ("id", JVal.int 1), ("order", JVal.int 7)],
           [("@type", JVal.str "chat"), ("id", JVal.int 2), ("order", JVal.int 7)],
           [("@type", JVal.str "chat"), ("id", JVal.int 3), ("order", JVal.int 7)]] ∧
    getChatsCursors (get_all_chats
        (fun v => [("@type", JVal.str "chat"), ("id", v), ("order", JVal.int 7)]) 2
        [[("@type", JVal.str "chats"), ("chat_ids", JVal.arr [.int 1, .int 2])],
         [("@type", JVal.str "chats"), ("chat_ids", JVal.arr [.int 2, .int 3])],
         [("@type", JVal.str "chats"), ("chat_ids", JVal.arr [.int 3])]]).1 =
      [JVal.int (2 ^ 63 - 1), JVal.int 7, JVal.int 7] := by
  have h := claim_C5
    (fun v => [("@type", JVal.str "chat"), ("id", v), ("order", JVal.int 7)])
    (fun _ => JVal.int 7) 2
    [[("@type", JVal.str "chats"), ("chat_ids", JVal.arr [.int 1, .int 2])],
     [("@type", JVal.str "chats"), ("chat_ids", JVal.arr [.int 2, .int 3])],
     [("@type", JVal.str "chats"), ("chat_ids", JVal.arr [.int 3])]]
    [[.int 1, .int 2], [.int 2, .int 3], [.int 3]] 2
    (by norm_num) (fun v => rfl) (fun v => rfl)
    (.cons ⟨rfl, rfl⟩ (.cons ⟨rfl, rfl⟩ (.cons ⟨rfl, rfl⟩ .nil)))
    (by rfl) (by norm_num)
  exact ⟨h.1, h.2.2.2⟩

/-!  Group-member pagination: claim C7.  Same scheme as C5: the
supergroup loop is proved equal to a transparent recursion over the
member pages (`specSuper`), and the claimed properties are read off.  -/

/-- Deduplicate member dicts by user identifier (`uidOf m` is the value
of `m['user_id']`): accumulated members and seen identifiers after one
page. -/
def specAddMembers (uidOf : JVal → JVal) (members added : List JVal) :
    List JVal → List JVal × List JVal
  | [] => (members, added)
  | m :: rest =>
    if uidOf m ∈ added then specAddMembers uidOf members added rest
    else specAddMembers uidOf (members ++ [m]) (added ++ [uidOf m]) rest

theorem specAddMembers_append (uidOf : JVal → JVal) :
    ∀ l1 l2 members added,
      specAddMembers uidOf members added (l1 ++ l2) =
        specAddMembers uidOf (specAddMembers uidOf members added l1).1
          (specAddMembers uidOf members added l1).2 l2 := by
  intro l1
  induction l1 with
  | nil => intro l2 members added; simp [specAddMembers]
  | cons m rest ih =>
    intro l2 members added
    by_cases hm : uidOf m ∈ added <;> simp [specAddMembers, hm, ih]

theorem addMembers_spec (uidOf : JVal → JVal) :
    ∀ page members added, (∀ m ∈ page, pyIndex m "user_id" = .ok (uidOf m)) →
      addMembers members added page = .ok (specAddMembers uidOf members added page) := by
  intro page
  induction page with
  | nil => intro members added _; simp [addMembers, specAddMembers]
  | cons m rest ih =>
    intro members added hall
    have hm := hall m (List.mem_cons_self _ _)
    have hrest := fun q hq => hall q (List.mem_cons_of_mem _ hq)
    by_cases hmem : uidOf m ∈ added <;>
      simp [addMembers, specAddMembers, hm, hmem, ih _ _ hrest]

theorem resolveUsers_spec (userResp : JVal → JObj) (uidOf : JVal → JVal)
    (hU : ∀ v, handle_errors (userResp v) = .ok ()) :
    ∀ ms, (∀ m ∈ ms, pyIndex m "user_id" = .ok (uidOf m)) →
      resolveUsers userResp ms =
        (ms.map fun m => ("getUser", [("user_id", uidOf m)]),
         .ok (ms.map fun m => userResp (uidOf m))) := by
  intro ms
  induction ms with
  | nil => intro _; simp [resolveUsers]
  | cons m rest ih =>
    intro hall
    have hm := hall m (List.mem_cons_self _ _)
    have hrest := ih fun q hq => hall q (List.mem_cons_of_mem _ hq)
    simp [resolveUsers, hm, callO, hU, hrest]

/-- The `offset` values of the `getSupergroupMembers` requests in a
request log, in order. -/
def getSuperOffsets (reqs : List Request) : List JVal :=
  reqs.filterMap fun r =>
    if r.1 = "getSupergroupMembers" then List.lookup "offset" r.2 else none

/-- What one run of the `_get_super_group_members` loop does, written as
a direct recursion over the member pages: request the next page at the
current offset, keep first occurrences per user identifier, advance the
offset by the page's raw length, and stop at the first empty page. -/
def specSuper (uidOf : JVal → JVal) (sgid : JVal) (ps : ℤ)
    (members added : List JVal) (offset : ℤ) :
    List (List JVal) → List Request × PagedOutcome (List JVal)
  | [] =>
    ([("getSupergroupMembers",
      [("supergroup_id", sgid), ("offset", .int offset), ("limit", .int ps)])],
     .pending)
  | mems :: rest =>
    let req : Request := ("getSupergroupMembers",
      [("supergroup_id", sgid), ("offset", .int offset), ("limit", .int ps)])
    let acc := specAddMembers uidOf members added mems
    if mems.length ≠ 0 then
      let (reqs2, out) := specSuper uidOf sgid ps acc.1 acc.2
        (offset + (mems.length : ℤ)) rest
      (req :: reqs2, out)
    else ([req], .ok acc.1)

theorem superLoop_eq_specSuper (chat : JObj) (uidOf : JVal → JVal) (sgid : JVal)
    (ps : ℤ)
    (hpi : pyIndex2 (.obj chat) "type" "supergroup_id" = .ok sgid) :
    ∀ pages memss members added offset,
      List.Forall₂ (fun (r : JObj) (mems : List JVal) =>
        handle_errors r = .ok () ∧ jlookup r "members" = some (.arr mems) ∧
        (∃ tc, jlookup r "total_count" = some tc) ∧
        ∀ m ∈ mems, pyIndex m "user_id" = .ok (uidOf m)) pages memss →
      superLoop chat ps members added offset pages =
        specSuper uidOf sgid ps members added offset memss := by
  intro pages
  induction pages with
  | nil =>
    intro memss members added offset h
    cases h
    simp [superLoop, specSuper, hpi]
  | cons resp rest ih =>
    intro memss members added offset h
    cases h with
    | cons hhead htail =>
      rename_i mems memss2
      obtain ⟨hok, hmem, ⟨tc, htc⟩, huid⟩ := hhead
      rw [superLoop, specSuper, hpi]
      simp only [callO, hok, hmem, htc, pyIter, addMembers_spec uidOf mems members added huid]
      by_cases hlen : mems.length ≠ 0
      · rw [if_pos hlen, if_pos hlen]
        rw [ih memss2 _ _ _ htail]
      · rw [if_neg hlen, if_neg hlen]

theorem getSuperOffsets_cons_page (sgid : JVal) (offset ps : ℤ)
    (reqs : List Request) :
    getSuperOffsets (("getSupergroupMembers",
        [("supergroup_id", sgid), ("offset", .int offset),
         ("limit", .int ps)]) :: reqs) =
      .int offset :: getSuperOffsets reqs := by
  simp [getSuperOffsets, List.filterMap_cons, List.lookup]

theorem specSuper_facts (uidOf : JVal → JVal) (sgid : JVal) (ps : ℤ) :
    ∀ memss members added offset k,
      k = memss.findIdx List.isEmpty → k < memss.length →
      (specSuper uidOf sgid ps members added offset memss).2 =
          .ok ((specAddMembers uidOf members added
            ((memss.take (k + 1)).flatten)).1) ∧
      getSuperOffsets (specSuper uidOf sgid ps members added offset memss).1 =
          (List.range (k + 1)).map fun i =>
            .int (offset + (((memss.take i).map List.length).sum : ℤ)) := by
  intro memss
  induction memss with
  | nil => intro members added offset k hk hlt; simp at hlt
  | cons mems rest ih =>
    intro members added offset k hk hlt
    rw [List.findIdx_cons] at hk
    by_cases hs : mems.isEmpty = true
    · rw [hs, cond_true] at hk
      subst hk
      have hnil : mems = [] := List.isEmpty_iff.mp hs
      subst hnil
      rw [specSuper, if_neg (by simp)]
      constructor
      · simp [specAddMembers]
      · rw [getSuperOffsets_cons_page, List.range_succ_eq_map]
        simp [getSuperOffsets]
    · rw [Bool.of_not_eq_true hs, cond_false] at hk
      subst hk
      simp only [List.length_cons, Nat.add_lt_add_iff_right] at hlt
      have hlen : mems.length ≠ 0 := by
        intro h0
        exact hs (by simp [List.isEmpty_iff, List.length_eq_zero.mp h0])
      rw [specSuper, if_pos hlen]
      have ihh := ih (specAddMembers uidOf members added mems).1
        (specAddMembers uidOf members added mems).2
        (offset + (mems.length : ℤ)) (rest.findIdx List.isEmpty) rfl hlt
      rcases hrec : specSuper uidOf sgid ps (specAddMembers uidOf members added mems).1
          (specAddMembers uidOf members added mems).2
          (offset + (mems.length : ℤ)) rest with ⟨reqs2, out⟩
      rw [hrec] at ihh
      simp only at ihh
      dsimp only
      constructor
      · rw [ihh.1, List.take_succ_cons, List.flatten_cons,
          specAddMembers_append]
      · rw [getSuperOffsets_cons_page, List.range_succ_eq_map,
          List.map_cons, List.map_map, ihh.2]
        congr 1
        · simp
        · apply List.map_congr_left
          intro i _
          simp only [Function.comp_apply, List.take_succ_cons, List.map_cons,
            List.sum_cons]
          congr 1
          push_cast
          ring

theorem getSuperOffsets_cons_other (name : String) (args : JObj)
    (reqs : List Request) (h : name ≠ "getSupergroupMembers") :
    getSuperOffsets ((name, args) :: reqs) = getSuperOffsets reqs := by
  simp [getSuperOffsets, List.filterMap_cons, h]

theorem getSuperOffsets_userMap (l : List JVal) (f : JVal → JObj) :
    getSuperOffsets (l.map fun m => ("getUser", f m)) = [] := by
  induction l with
  | nil => rfl
  | cons x rest ih =>
    simp only [List.map_cons]
    rw [getSuperOffsets_cons_other _ _ _ (by decide)]
    exact ih

theorem getSuperOffsets_append (r1 r2 : List Request) :
    getSuperOffsets (r1 ++ r2) = getSuperOffsets r1 ++ getSuperOffsets r2 := by
  simp [getSuperOffsets, List.filterMap_append]

theorem specAddMembers_mem (uidOf : JVal → JVal) :
    ∀ l members added m, m ∈ (specAddMembers uidOf members added l).1 →
      m ∈ members ∨ m ∈ l := by
  intro l
  induction l with
  | nil =>
    intro members added m hm
    exact Or.inl (by simpa [specAddMembers] using hm)
  | cons x rest ih =>
    intro members added m hm
    by_cases hx : uidOf x ∈ added
    · rw [specAddMembers, if_pos hx] at hm
      rcases ih members added m hm with h | h
      · exact Or.inl h
      · exact Or.inr (List.mem_cons_of_mem _ h)
    · rw [specAddMembers, if_neg hx] at hm
      rcases ih (members ++ [x]) (added ++ [uidOf x]) m hm with h | h
      · rcases List.mem_append.mp h with h2 | h2
        · exact Or.inl h2
        · exact Or.inr (by rw [List.mem_singleton.mp h2]; exact List.mem_cons_self x rest)
      · exact Or.inr (List.mem_cons_of_mem _ h)

/-- C7: on a basic group every member comes from the single
`getBasicGroupFullInfo` call — the request log holds the chat lookup,
exactly one member-list call and one `getUser` per member, no
member-page requests; on a supergroup the loop requests `page_size`
members at the running offset, advances the offset by each page's raw
length, keeps the first member per user identifier, stops at the first
empty page, and returns the accumulated members resolved through
`getUser`.  The `total_count` field is only required to be present: the
conclusion holds for every value it takes (a mismatch with the
accumulated count is merely logged), so a disagreeing total does not
abort the call. -/
theorem claim_C7 :
    (∀ (chatResp userResp : JVal → JObj) (basicResp : JObj) (gid bgid : JVal)
        (ps : ℤ) (pages : List JObj) (chat : JObj) (tyfs : List (String × JVal))
        (mems : List JVal) (uidOf : JVal → JVal),
      chatResp gid = chat → handle_errors chat = .ok () →
      jlookup chat "type" = some (.obj tyfs) →
      tyfs.lookup "@type" = some (.str "chatTypeBasicGroup") →
      tyfs.lookup "basic_group_id" = some bgid →
      handle_errors basicResp = .ok () →
      jlookup basicResp "members" = some (.arr mems) →
      (∀ m ∈ mems, pyIndex m "user_id" = .ok (uidOf m)) →
      (∀ v, handle_errors (userResp v) = .ok ()) →
      get_group_members chatResp userResp basicResp gid ps pages =
        ([("getChat", [("chat_id", gid)]),
          ("getBasicGroupFullInfo", [("basic_group_id", bgid)])] ++
            (mems.map fun m => ("getUser", [("user_id", uidOf m)])),
         .ok (mems.map fun m => userResp (uidOf m)))) ∧
    (∀ (chatResp userResp : JVal → JObj) (basicResp : JObj) (gid sgid : JVal)
        (ps : ℤ) (pages : List JObj) (chat : JObj) (tyfs : List (String × JVal))
        (memss : List (List JVal)) (uidOf : JVal → JVal) (k : ℕ),
      chatResp gid = chat → handle_errors chat = .ok () →
      jlookup chat "type" = some (.obj tyfs) →
      tyfs.lookup "@type" = some (.str "chatTypeSupergroup") →
      tyfs.lookup "supergroup_id" = some sgid →
      1 < ps →
      List.Forall₂ (fun (r : JObj) (mems : List JVal) =>
        handle_errors r = .ok () ∧ jlookup r "members" = some (.arr mems) ∧
        (∃ tc, jlookup r "total_count" = some tc) ∧
        ∀ m ∈ mems, pyIndex m "user_id" = .ok (uidOf m)) pages memss →
      (∀ v, handle_errors (userResp v) = .ok ()) →
      k = memss.findIdx List.isEmpty → k < memss.length →
      (get_group_members chatResp userResp basicResp gid ps pages).2 =
          .ok (((specAddMembers uidOf [] []
            ((memss.take (k + 1)).flatten)).1).map fun m => userResp (uidOf m)) ∧
      getSuperOffsets
          (get_group_members chatResp userResp basicResp gid ps pages).1 =
        (List.range (k + 1)).map fun i =>
          .int (((memss.take i).map List.length).sum : ℤ)) := by
  constructor
  · intro chatResp userResp basicResp gid bgid ps pages chat tyfs mems uidOf
      hchat hok hty htag hbg hbok hbm huid hU
    have hty2 : List.lookup "type" chat = some (.obj tyfs) := hty
    have hbm2 : List.lookup "members" basicResp = some (.arr mems) := hbm
    have hres := resolveUsers_spec userResp uidOf hU mems huid
    simp [get_group_members, hchat, callO, hok, pyIndex2, pyIndex, hty2, htag,
      hbg, hbok, hbm2, pyIter, hres]
  · intro chatResp userResp basicResp gid sgid ps pages chat tyfs memss uidOf k
      hchat hok hty htag hsg hps hWF hU hk hlt
    have hty2 : List.lookup "type" chat = some (.obj tyfs) := hty
    have hpi : pyIndex2 (.obj chat) "type" "supergroup_id" = .ok sgid := by
      simp [pyIndex2, pyIndex, hty2, hsg]
    have hloop := superLoop_eq_specSuper chat uidOf sgid ps hpi pages memss
      [] [] 0 hWF
    have hfacts := specSuper_facts uidOf sgid ps memss [] [] 0 k hk hlt
    have huniv : ∀ mems ∈ memss, ∀ m ∈ mems,
        pyIndex m "user_id" = .ok (uidOf m) := by
      clear hloop hfacts hk hlt
      induction hWF with
      | nil => simp
      | cons h _ ih =>
        intro mems hm
        rcases List.mem_cons.mp hm with rfl | hm2
        · exact h.2.2.2
        · exact ih _ hm2
    rcases hrec : specSuper uidOf sgid ps [] [] 0 memss with ⟨reqs, out⟩
    rw [hrec] at hfacts
    simp only at hfacts
    have hfin : ∀ m ∈ (specAddMembers uidOf [] []
        ((memss.take (k + 1)).flatten)).1, pyIndex m "user_id" = .ok (uidOf m) := by
      intro m hm
      rcases specAddMembers_mem uidOf _ [] [] m hm with h | h
      · simp at h
      · obtain ⟨l, hl, hml⟩ := List.mem_flatten.mp h
        exact huniv l (List.take_subset _ _ hl) m hml
    have hres := resolveUsers_spec userResp uidOf hU _ hfin
    have hne : ("chatTypeSupergroup" : String) ≠ "chatTypeBasicGroup" := by decide
    have hgm : get_group_members chatResp userResp basicResp gid ps pages =
        (("getChat", [("chat_id", gid)]) :: reqs ++
          (((specAddMembers uidOf [] [] ((memss.take (k + 1)).flatten)).1).map
            fun m => ("getUser", [("user_id", uidOf m)])),
         .ok (((specAddMembers uidOf [] []
           ((memss.take (k + 1)).flatten)).1).map fun m => userResp (uidOf m))) := by
      rw [get_group_members]
      simp only [callO, hchat, hok]
      rw [show pyIndex2 (.obj chat) "type" "@type" = .ok (.str "chatTypeSupergroup")
        from by simp [pyIndex2, pyIndex, hty2, htag]]
      simp only [hne, if_neg, if_pos, JVal.str.injEq, reduceIte]
      rw [get_super_group_members, if_neg (by omega), hloop, hrec, hfacts.1]
      dsimp only
      rw [hres]
    rw [hgm]
    constructor
    · rfl
    · have h0 : getSuperOffsets (("getChat", [("chat_id", gid)]) :: reqs ++
          (((specAddMembers uidOf [] [] ((memss.take (k + 1)).flatten)).1).map
            fun m => ("getUser", [("user_id", uidOf m)]))) =
          getSuperOffsets reqs := by
        rw [List.cons_append, getSuperOffsets_cons_other _ _ _ (by decide),
          getSuperOffsets_append, getSuperOffsets_userMap, List.append_nil]
      rw [h0, hfacts.2]
      simp

/-- C7 witness — basic group: one `getBasicGroupFullInfo` call and one
`getUser` per member; supergroup: overlapping pages `[1,2]`, `[2]`, `[]`
with a total_count of 99 that disagrees with the accumulated count of 2:
the call still returns the two deduplicated members, with offsets
advancing by the raw page lengths 0, 2, 3. -/
theorem claim_C7_witness :
    get_group_members
        (fun _ => [("@type", JVal.str "chat"),
          ("type", JVal.obj [("@type", JVal.str "chatTypeBasicGroup"),
            ("basic_group_id", JVal.int 4)])])
        (fun v => [("@type", JVal.str "user"), ("id", v)])
        [("@type", JVal.str "basicGroupFullInfo"),
         ("members", JVal.arr [.obj [("user_id", JVal.int 1)]])]
        (.int 3) 200 [] =
      ([("getChat", [("chat_id", JVal.int 3)]),
        ("getBasicGroupFullInfo", [("basic_group_id", JVal.int 4)]),
        ("getUser", [("user_id", JVal.int 1)])],
       .ok [[("@type", JVal.str "user"), ("id", JVal.int 1)]]) ∧
    ((get_group_members
        (fun _ => [("@type", JVal.str "chat"),
          ("type", JVal.obj [("@type", JVal.str "chatTypeSupergroup"),
            ("supergroup_id", JVal.int 5)])])
        (fun v => [("@type", JVal.str "user"), ("id", v)]) []
        (.int 6) 2
        [[("@type", JVal.str "chatMembers"), ("total_count", JVal.int 99),
          ("members", JVal.arr [.obj [("user_id", JVal.int 1)],
            .obj [("user_id", JVal.int 2)]])],
         [("@type", JVal.str "chatMembers"), ("total_count", JVal.int 99),
          ("members", JVal.arr [.obj [("user_id", JVal.int 2)]])],
         [("@type", JVal.str "chatMembers"), ("total_count", JVal.int 99),
          ("members", JVal.arr [])]]).2 =
      .ok [[("@type", JVal.str "user"), ("id", JVal.int 1)],
           [("@type", JVal.str "user"), ("id", JVal.int 2)]] ∧
    getSuperOffsets (get_group_members
        (fun _ => [("@type", JVal.str "chat"),
          ("type", JVal.obj [("@type", JVal.str "chatTypeSupergroup"),
            ("supergroup_id", JVal.int 5)])])
        (fun v => [("@type", JVal.str "user"), ("id", v)]) []
        (.int 6) 2
        [[("@type", JVal.str "chatMembers"), ("total_count", JVal.int 99),
          ("members", JVal.arr [.obj [("user_id", JVal.int 1)],
            .obj [("user_id", JVal.int 2)]])],
         [("@type", JVal.str "chatMembers"), ("total_count", JVal.int 99),
          ("members", JVal.arr [.obj [("user_id", JVal.int 2)]])],
         [("@type", JVal.str "chatMembers"), ("total_count", JVal.int 99),
          ("members", JVal.arr [])]]).1 =
      [JVal.int 0, JVal.int 2, JVal.int 3]) := by
  constructor
  · exact claim_C7.1 _ _ _ (.int 3) (.int 4) 200 []
      [("@type", JVal.str "chat"),
        ("type", JVal.obj [("@type", JVal.str "chatTypeBasicGroup"),
          ("basic_group_id", JVal.int 4)])]
      [("@type", JVal.str "chatTypeBasicGroup"), ("basic_group_id", JVal.int 4)]
      [.obj [("user_id", JVal.int 1)]]
      (fun m => match pyIndex m "user_id" with | .ok v => v | .error _ => .null)
      rfl rfl (by decide) (by decide) (by decide) rfl (by decide)
      (by decide) (fun v => rfl)
  · have h := claim_C7.2
      (fun _ => [("@type", JVal.str "chat"),
        ("type", JVal.obj [("@type", JVal.str "chatTypeSupergroup"),
          ("supergroup_id", JVal.int 5)])])
      (fun v => [("@type", JVal.str "user"), ("id", v)]) []
      (.int 6) (.int 5) 2
      [[("@type", JVal.str "chatMembers"), ("total_count", JVal.int 99),
        ("members", JVal.arr [.obj [("user_id", JVal.int 1)],
          .obj [("user_id", JVal.int 2)]])],
       [("@type", JVal.str "chatMembers"), ("total_count", JVal.int 99),
        ("members", JVal.arr [.obj [("user_id", JVal.int 2)]])],
       [("@type", JVal.str "chatMembers"), ("total_count", JVal.int 99),
        ("members", JVal.arr [])]]
      [("@type", JVal.str "chat"),
        ("type", JVal.obj [("@type", JVal.str "chatTypeSupergroup"),
          ("supergroup_id", JVal.int 5)])]
      [("@type", JVal.str "chatTypeSupergroup"), ("supergroup_id", JVal.int 5)]
      [[.obj [("user_id", JVal.int 1)], .obj [("user_id", JVal.int 2)]],
       [.obj [("user_id", JVal.int 2)]], []]
      (fun m => match pyIndex m "user_id" with | .ok v => v | .error _ => .null) 2
      rfl rfl (by decide) (by decide) (by decide) (by norm_num)
      (.cons ⟨rfl, rfl, ⟨.int 99, rfl⟩, by decide⟩
        (.cons ⟨rfl, rfl, ⟨.int 99, rfl⟩, by decide⟩
          (.cons ⟨rfl, rfl, ⟨.int 99, rfl⟩, by decide⟩ .nil)))
      (fun v => rfl) (by rfl) (by norm_num)
    exact ⟨h.1, h.2⟩

/-!  Error classifier: claim C4.  -/

/-- The message texts the classifier compares the `message` field
against, in the order they are consulted: the seven dedicated text rules
of client.py lines 249-268 and the `'Unauthorized'` disjunct of the
authentication rule at line 270. -/
def messageRuleTexts : List JVal :=
  [.str "PHONE_NUMBER_INVALID", .str "PASSWORD_HASH_INVALID",
   .str "PHONE_CODE_INVALID", .str "Supergroup members are unavailable",
   .str "Chat not found", .str "setAuthenticationPhoneNumber unexpected",
   .str "Already logging out", .str "Unauthorized"]

/-- C4: the classifier's message-text rules run before its code rules —
`PHONE_NUMBER_INVALID` yields `InvalidPhoneNumber` whatever the code
(including 401); a code of 429 or 420 with a message matching no text
rule yields `TooManyRequests`; an envelope matching no table entry
yields `UnknownError`, always carrying the original code and message in
the error text. -/
theorem claim_C4 :
    (∀ (resp : JObj) (c : JVal),
      jlookup resp "@type" = some (.str "error") →
      (jlookup resp "message").getD (.str "Empty error message") =
        .str "PHONE_NUMBER_INVALID" →
      (jlookup resp "code").getD .null = c →
      handle_errors resp = .error (.telega (.InvalidPhoneNumber
        ("Telegram error: " ++ pyStr c ++ " -> PHONE_NUMBER_INVALID")))) ∧
    (∀ (resp : JObj) (m c : JVal),
      jlookup resp "@type" = some (.str "error") →
      (jlookup resp "message").getD (.str "Empty error message") = m →
      (jlookup resp "code").getD .null = c →
      m ∉ messageRuleTexts →
      c = .int 429 ∨ c = .int 420 →
      handle_errors resp = .error (.telega (.TooManyRequests
        ("Telegram error: " ++ pyStr c ++ " -> " ++ pyStr m)))) ∧
    (∀ (resp : JObj) (m c : JVal),
      jlookup resp "@type" = some (.str "error") →
      (jlookup resp "message").getD (.str "Empty error message") = m →
      (jlookup resp "code").getD .null = c →
      m ∉ messageRuleTexts →
      c ≠ .int 401 → c ≠ .int 429 → c ≠ .int 420 →
      handle_errors resp = .error (.telega (.UnknownError
        ("Telegram error: " ++ pyStr c ++ " -> " ++ pyStr m)))) := by
  refine ⟨?_, ?_, ?_⟩
  · intro resp c ht hm hc
    simp [handle_errors, ht, hm, hc, pyStr]
    rw [String.append_assoc]
    rfl
  · intro resp m c ht hm hc hnot hcc
    have hne : ∀ x ∈ messageRuleTexts, m ≠ x := fun x hx e => hnot (e ▸ hx)
    have h1 := hne (.str "PHONE_NUMBER_INVALID") (by simp [messageRuleTexts])
    have h2 := hne (.str "PASSWORD_HASH_INVALID") (by simp [messageRuleTexts])
    have h3 := hne (.str "PHONE_CODE_INVALID") (by simp [messageRuleTexts])
    have h4 := hne (.str "Supergroup members are unavailable")
      (by simp [messageRuleTexts])
    have h5 := hne (.str "Chat not found") (by simp [messageRuleTexts])
    have h6 := hne (.str "setAuthenticationPhoneNumber unexpected")
      (by simp [messageRuleTexts])
    have h7 := hne (.str "Already logging out") (by simp [messageRuleTexts])
    have h8 := hne (.str "Unauthorized") (by simp [messageRuleTexts])
    rcases hcc with rfl | rfl <;>
      simp [handle_errors, ht, hm, hc, h1, h2, h3, h4, h5, h6, h7, h8]
  · intro resp m c ht hm hc hnot hc1 hc2 hc3
    have hne : ∀ x ∈ messageRuleTexts, m ≠ x := fun x hx e => hnot (e ▸ hx)
    have h1 := hne (.str "PHONE_NUMBER_INVALID") (by simp [messageRuleTexts])
    have h2 := hne (.str "PASSWORD_HASH_INVALID") (by simp [messageRuleTexts])
    have h3 := hne (.str "PHONE_CODE_INVALID") (by simp [messageRuleTexts])
    have h4 := hne (.str "Supergroup members are unavailable")
      (by simp [messageRuleTexts])
    have h5 := hne (.str "Chat not found") (by simp [messageRuleTexts])
    have h6 := hne (.str "setAuthenticationPhoneNumber unexpected")
      (by simp [messageRuleTexts])
    have h7 := hne (.str "Already logging out") (by simp [messageRuleTexts])
    have h8 := hne (.str "Unauthorized") (by simp [messageRuleTexts])
    simp [handle_errors, ht, hm, hc, h1, h2, h3, h4, h5, h6, h7, h8, hc1, hc2, hc3]

/-- C4 witness: `PHONE_NUMBER_INVALID` with code 401 is classified as
`InvalidPhoneNumber`; code 429 with an unmatched message as
`TooManyRequests`; code 404 with an unmatched message as `UnknownError`
carrying the original code and message. -/
theorem claim_C4_witness :
    handle_errors [("@type", JVal.str "error"), ("code", JVal.int 401),
        ("message", JVal.str "PHONE_NUMBER_INVALID")] =
      .error (.telega (.InvalidPhoneNumber
        "Telegram error: 401 -> PHONE_NUMBER_INVALID")) ∧
    handle_errors [("@type", JVal.str "error"), ("code", JVal.int 429),
        ("message", JVal.str "FLOOD_WAIT_23")] =
      .error (.telega (.TooManyRequests "Telegram error: 429 -> FLOOD_WAIT_23")) ∧
    handle_errors [("@type", JVal.str "error"), ("code", JVal.int 404),
        ("message", JVal.str "Not Found")] =
      .error (.telega (.UnknownError "Telegram error: 404 -> Not Found")) := by
  refine ⟨?_, ?_, ?_⟩
  · exact claim_C4.1 [("@type", JVal.str "error"), ("code", JVal.int 401),
      ("message", JVal.str "PHONE_NUMBER_INVALID")] (.int 401)
      (by decide) (by decide) (by decide)
  · exact claim_C4.2.1 [("@type", JVal.str "error"), ("code", JVal.int 429),
      ("message", JVal.str "FLOOD_WAIT_23")] (.str "FLOOD_WAIT_23") (.int 429)
      (by decide) (by decide) (by decide) (by decide) (Or.inl rfl)
  · exact claim_C4.2.2 [("@type", JVal.str "error"), ("code", JVal.int 404),
      ("message", JVal.str "Not Found")] (.str "Not Found") (.int 404)
      (by decide) (by decide) (by decide) (by decide) (by decide) (by decide)
      (by decide)

/-!  Group-member listing: claims C8, C9, C6.  -/

theorem handle_errors_ok_of_type (r : JObj) (t : JVal)
    (ht : jlookup r "@type" = some t) (hne : t ≠ .str "error") :
    handle_errors r = .ok () := by
  rw [handle_errors, ht]
  simp [hne]

/-- C8: a chat whose type tag is neither the basic-group kind nor the
supergroup kind makes `get_group_members` fail with the generic
`TDLibError` (no member list, no more specific error kind). -/
theorem claim_C8 (chatResp userResp : JVal → JObj) (basicResp : JObj)
    (gid : JVal) (ps : ℤ) (pages : List JObj) (chat : JObj)
    (tyfs : List (String × JVal)) (s : String)
    (hchat : chatResp gid = chat)
    (hok : handle_errors chat = .ok ())
    (hty : jlookup chat "type" = some (.obj tyfs))
    (htag : tyfs.lookup "@type" = some (.str s))
    (hs1 : s ≠ "chatTypeBasicGroup") (hs2 : s ≠ "chatTypeSupergroup") :
    get_group_members chatResp userResp basicResp gid ps pages =
      ([("getChat", [("chat_id", gid)])],
       .err (.telega (.TDLibError ("Unknown group type: " ++ s)))) := by
  have hty2 : List.lookup "type" chat = some (.obj tyfs) := hty
  simp [get_group_members, hchat, callO, hok, pyIndex2, pyIndex, hty2, htag,
    pyStr, hs1, hs2]

/-- C8 witness: a secret chat is rejected with the generic error. -/
theorem claim_C8_witness :
    get_group_members
        (fun _ => [("@type", JVal.str "chat"),
          ("type", JVal.obj [("@type", JVal.str "chatTypeSecret")])])
        (fun _ => []) [] (.int 9) 200 [] =
      ([("getChat", [("chat_id", JVal.int 9)])],
       .err (.telega (.TDLibError "Unknown group type: chatTypeSecret"))) := by
  exact claim_C8 _ _ _ _ _ _
    [("@type", JVal.str "chat"),
      ("type", JVal.obj [("@type", JVal.str "chatTypeSecret")])]
    [("@type", JVal.str "chatTypeSecret")] "chatTypeSecret"
    rfl rfl (by decide) (by decide) (by decide) (by decide)

/-- C9: when the authorization state observed by `send_sms_code` is
`WaitPassword` and no password argument was supplied, the call fails
with `TwoFactorPasswordNeeded` having sent nothing but the state
observation itself — in particular no `checkAuthenticationCode` or
`checkAuthenticationPassword` request is ever sent. -/
theorem claim_C9 (sms_code : String) (resp1 : JObj) (rest : List JObj)
    (hst : jlookup resp1 "@type" = some (.str AuthStates.WaitPassword)) :
    send_sms_code sms_code none (resp1 :: rest) =
      ([("getAuthorizationState", [])], .err (.telega .TwoFactorPasswordNeeded)) := by
  have hok : handle_errors resp1 = .ok () :=
    handle_errors_ok_of_type resp1 _ hst (by decide)
  have hst2 : List.lookup "@type" resp1 = some (.str AuthStates.WaitPassword) := hst
  have hne : JVal.str AuthStates.WaitPassword ≠ .str AuthStates.WaitCode := by decide
  simp [send_sms_code, callO, hok, pyIndex, hst2, hne,
    sms_password_phase, pyFalsyStr, AuthStates.WaitPassword, AuthStates.WaitCode]

/-- C9 witness: a channel reporting `WaitPassword` and a call with no
password. -/
theorem claim_C9_witness :
    send_sms_code "12345" none
        [[("@type", JVal.str "authorizationStateWaitPassword")]] =
      ([("getAuthorizationState", [])], .err (.telega .TwoFactorPasswordNeeded)) :=
  claim_C9 "12345" [("@type", JVal.str "authorizationStateWaitPassword")] []
    (by decide)

/-- C6 counterexample: on a supergroup with `page_size = 1` the
validation error is indeed raised, but only after the `getChat` lookup
request has already been sent through the channel — the request log at
the moment of failure is not empty, so the error is not raised before
any network interaction. -/
theorem claim_C6_counterexample :
    get_group_members
        (fun _ => [("@type", JVal.str "chat"),
          ("type", JVal.obj [("@type", JVal.str "chatTypeSupergroup"),
            ("supergroup_id", JVal.int 5)])])
        (fun _ => []) [] (.int 1) 1 [] =
      ([("getChat", [("chat_id", JVal.int 1)])],
       .err (.telega (.TDLibError "Invalid \"page_size\""))) := by
  decide

/-- C6 (amended): with `page_size ≤ 1`, chat listing raises the
validation error before sending any request at all, and group-member
listing on a supergroup raises it after the single chat-type lookup
request but before any member-page request. -/
theorem claim_C6 :
    (∀ (chatResp : JVal → JObj) (ps : ℤ) (pages : List JObj), ps ≤ 1 →
      get_all_chats chatResp ps pages =
        ([], .err (.telega (.TDLibError "Invalid \"page_size\"")))) ∧
    (∀ (chatResp userResp : JVal → JObj) (basicResp : JObj) (gid : JVal) (ps : ℤ)
        (pages : List JObj) (chat : JObj) (tyfs : List (String × JVal)),
      chatResp gid = chat → handle_errors chat = .ok () →
      jlookup chat "type" = some (.obj tyfs) →
      tyfs.lookup "@type" = some (.str "chatTypeSupergroup") →
      ps ≤ 1 →
      get_group_members chatResp userResp basicResp gid ps pages =
        ([("getChat", [("chat_id", gid)])],
         .err (.telega (.TDLibError "Invalid \"page_size\"")))) := by
  constructor
  · intro chatResp ps pages hps
    simp [get_all_chats, hps]
  · intro chatResp userResp basicResp gid ps pages chat tyfs hchat hok hty htag hps
    have hty2 : List.lookup "type" chat = some (.obj tyfs) := hty
    have hne : ("chatTypeSupergroup" : String) ≠ "chatTypeBasicGroup" := by decide
    simp [get_group_members, hchat, callO, hok, pyIndex2, pyIndex, hty2, htag,
      hne, get_super_group_members, hps]

/-- C6 witness: page size 1 on chat listing sends nothing; page size 1
on a supergroup member listing sends exactly the chat lookup. -/
theorem claim_C6_witness :
    get_all_chats (fun _ => []) 1 [] =
      ([], .err (.telega (.TDLibError "Invalid \"page_size\""))) ∧
    get_group_members
        (fun _ => [("@type", JVal.str "chat"),
          ("type", JVal.obj [("@type", JVal.str "chatTypeSupergroup"),
            ("supergroup_id", JVal.int 5)])])
        (fun _ => []) [] (.int 7) 0 [] =
      ([("getChat", [("chat_id", JVal.int 7)])],
       .err (.telega (.TDLibError "Invalid \"page_size\""))) :=
  ⟨claim_C6.1 (fun _ => []) 1 [] (by norm_num),
   claim_C6.2 _ (fun _ => []) [] (.int 7) 0 []
     [("@type", JVal.str "chat"),
       ("type", JVal.obj [("@type", JVal.str "chatTypeSupergroup"),
         ("supergroup_id", JVal.int 5)])]
     [("@type", JVal.str "chatTypeSupergroup"), ("supergroup_id", JVal.int 5)]
     rfl rfl (by decide) (by decide) (by norm_num)⟩
